import Mathlib

/-!
Verification of the EOEPCA processing-service template hook
(`service.py`, class `EoepcaCalrissianRunnerExecutionHandler` and the
service entrypoint).  The Python code is shallowly embedded: dictionaries
become association lists over `String`, fallible operations return
`Except`, and ambient process state (environment variables, HTTP
responses, file contents) is passed explicitly.
-/

namespace EoepcaService

/-- A Python `dict[str, str]` as an association list.  Insertion of an
existing key replaces the value in place (Python dicts keep insertion
order on update); a new key is appended at the end. -/
abbrev Dict := List (String × String)

/-- Assignment `d[k] = v` on a Python dict. -/
def setKV (k v : String) : Dict → Dict
  | [] => [(k, v)]
  | (k', v') :: m => if k' = k then (k, v) :: m else (k', v') :: setKV k v m

/-- Lookup `d.get(k)` / `k in d` on a Python dict. -/
def getV : Dict → String → Option String
  | [], _ => none
  | (k', v) :: m, k => if k' = k then some v else getV m k

/-- Reads `os.environ.get(k, default)`. -/
def envOr (env : String → Option String) (k d : String) : String :=
  (env k).getD d

/-- The static method `init_config_defaults`:
populates `conf["additional_parameters"]` (created empty when the section
is absent) with the four STAGEIN_* and five STAGEOUT_* credentials, each
taken from the ambient environment with a hard-coded fallback. -/
def init_config_defaults (env : String → Option String) (ap : Option Dict) : Dict :=
  setKV "STAGEOUT_OUTPUT" (envOr env "STAGEOUT_OUTPUT" "eoepca")
    (setKV "STAGEOUT_AWS_REGION" (envOr env "STAGEOUT_AWS_REGION" "RegionOne")
      (setKV "STAGEOUT_AWS_SECRET_ACCESS_KEY"
        (envOr env "STAGEOUT_AWS_SECRET_ACCESS_KEY" "minio-secret-password")
        (setKV "STAGEOUT_AWS_ACCESS_KEY_ID"
          (envOr env "STAGEOUT_AWS_ACCESS_KEY_ID" "minio-admin")
          (setKV "STAGEOUT_AWS_SERVICEURL"
            (envOr env "STAGEOUT_AWS_SERVICEURL" "http://s3-service.zoo.svc.cluster.local:9000")
            (setKV "STAGEIN_AWS_REGION" (envOr env "STAGEIN_AWS_REGION" "RegionOne")
              (setKV "STAGEIN_AWS_SECRET_ACCESS_KEY"
                (envOr env "STAGEIN_AWS_SECRET_ACCESS_KEY" "minio-secret-password")
                (setKV "STAGEIN_AWS_ACCESS_KEY_ID"
                  (envOr env "STAGEIN_AWS_ACCESS_KEY_ID" "minio-admin")
                  (setKV "STAGEIN_AWS_SERVICEURL"
                    (envOr env "STAGEIN_AWS_SERVICEURL"
                      "http://s3-service.zoo.svc.cluster.local:9000")
                    (ap.getD [])))))))))

/-- The nine staging-credential keys written by `init_config_defaults`. -/
def stagingKeys : List String :=
  ["STAGEIN_AWS_SERVICEURL", "STAGEIN_AWS_ACCESS_KEY_ID",
   "STAGEIN_AWS_SECRET_ACCESS_KEY", "STAGEIN_AWS_REGION",
   "STAGEOUT_AWS_SERVICEURL", "STAGEOUT_AWS_ACCESS_KEY_ID",
   "STAGEOUT_AWS_SECRET_ACCESS_KEY", "STAGEOUT_AWS_REGION",
   "STAGEOUT_OUTPUT"]

/-! Image-pull-secret loading (`local_get_file`, `get_secrets`). -/

/-- A YAML document as far as this service observes it. -/
inductive YamlDoc where
  | null
  | mapping (d : Dict)
  deriving DecidableEq

/-- State of the fixed local secrets file, as seen by `open` +
`yaml.safe_load`: the file can be absent (`FileNotFoundError`), present
but failing some uncaught I/O error, or present with a parse outcome
(`Except.error` standing for `yaml.YAMLError`, which also covers
`yaml.scanner.ScannerError`). -/
inductive FileState where
  | missing
  | unreadable
  | content (parsed : Except Unit YamlDoc)

/-- The static method `local_get_file`: returns the parsed document, `{}` when the file is
absent or the YAML parser raises; any other exception propagates. -/
def local_get_file : FileState → Except Unit YamlDoc
  | .missing => .ok (.mapping [])
  | .unreadable => .error ()
  | .content (.error _) => .ok (.mapping [])
  | .content (.ok y) => .ok y

/-- Method `get_secrets`: loads `/assets/pod_imagePullSecrets.yaml`. -/
def get_secrets (st : FileState) : Except Unit YamlDoc :=
  local_get_file st

/-! HTTP proxy environment scope. -/

/-- Python truthiness of an optional string (`None` and `""` are falsy). -/
def pyTruthyStr : Option String → Bool
  | none => false
  | some s => !(s == "")

/-- Method `unset_http_proxy_env`: `os.environ.pop("HTTP_PROXY", None)`. -/
def unset_http_proxy_env (_env : Option String) : Option String := none

/-- Method `restore_http_proxy_env`: `if self.http_proxy_env:` — writes the value
captured at `__init__` back only when that captured value is truthy. -/
def restore_http_proxy_env (captured env : Option String) : Option String :=
  if pyTruthyStr captured then captured else env

/-- One hook call as seen by the `HTTP_PROXY` variable: `captured` is
`self.http_proxy_env` (set at handler construction, not at hook entry),
`env` is the variable's state when the hook starts; the body may raise,
and `restore_http_proxy_env` runs in the `finally` block either way.
Returns the body's outcome and the variable's final state. -/
def runHookProxy (captured env : Option String) (bodyRaises : Bool) :
    Except Unit Unit × Option String :=
  let env1 := unset_http_proxy_env env
  ((if bodyRaises then .error () else .ok ()), restore_http_proxy_env captured env1)

/-! Username resolution. -/

/-- The static method `get_user_name`: scans the decoded JWT payload for the first of the
claims `username`, `user_name`, `preferred_username`. -/
def get_user_name (decodedJwt : Dict) : Option String :=
  match getV decodedJwt "username" with
  | some v => some v
  | none =>
    match getV decodedJwt "user_name" with
    | some v => some v
    | none =>
      match getV decodedJwt "preferred_username" with
      | some v => some v
      | none => none

/-- Username resolution of `pre_execution_hook` (lines 133-146): when a
non-empty raw token is present its decoded payload is mined by
`get_user_name`; a falsy outcome (`None`, or an empty string — the code
tests `if not self.username`) falls back to the `SERVICES_NAMESPACE`
environment variable. -/
def resolve_username (token : Option Dict) (servicesNamespace : Option String) :
    Option String :=
  let fromJwt : Option String :=
    match token with
    | some d => get_user_name d
    | none => none
  if pyTruthyStr fromJwt then fromJwt else servicesNamespace

/-! Workspace credential resolution (`pre_execution_hook`, lines 154-192). -/

/-- The `storage.credentials` object of a workspace-details response. -/
structure StorageCredentials where
  endpoint : String
  access : String
  secret : String
  region : String
  bucketname : String
  deriving DecidableEq

/-- Observable outcome of `requests.get` on the workspace endpoint: the
call itself may raise (network failure), or a response is delivered with
a success flag (`response.ok`) and a body from which
`response.json()["storage"]["credentials"]` either yields credentials or
raises (unparsable JSON, or the `storage`/`credentials` keys missing). -/
inductive WorkspaceResponse where
  | netFail
  | resp (ok : Bool) (body : Except Unit StorageCredentials)

/-- The workspace-credential step of `pre_execution_hook`, entered with
`use_workspace = true`: a good (`ok`) response overwrites the five
STAGEOUT_* entries from the response credentials; a delivered non-2xx
response keeps `additional_parameters` as it was and sets
`use_workspace = false`; an exception raised by the request itself or by
body decoding escapes (the hook's `except` clause logs and re-raises).
Returns the updated `additional_parameters` and `use_workspace` flag. -/
def resolve_workspace (ap : Dict) : WorkspaceResponse → Except Unit (Dict × Bool)
  | .netFail => .error ()
  | .resp true (.error _) => .error ()
  | .resp true (.ok c) =>
      .ok (setKV "STAGEOUT_OUTPUT" c.bucketname
        (setKV "STAGEOUT_AWS_REGION" c.region
          (setKV "STAGEOUT_AWS_SECRET_ACCESS_KEY" c.secret
            (setKV "STAGEOUT_AWS_ACCESS_KEY_ID" c.access
              (setKV "STAGEOUT_AWS_SERVICEURL" c.endpoint ap)))), true)
  | .resp false _ => .ok (ap, false)

/-! Output-catalog assembly (`setOutput`) and output mapping. -/

/-- A native collection found in the loaded document, observed through
its `to_dict()` serialization (which carries the original `id`). -/
structure SrcCollection where
  dict : Dict
  deriving DecidableEq

/-- What `setOutput` finds in a successfully read document: either
`next(cat.get_all_collections())` yields a native collection, or the
item-scan fallback runs; that fallback's outcome (the `to_dict()` of a
synthetic `ItemCollection`, or nothing when the scan raises) is
determined by the external STAC library's iterators and is kept
abstract here. -/
inductive DocShape where
  | withCollection (c : SrcCollection)
  | itemsOnly (fallback : Option Dict)

/-- One element of `values[outputName]`: `None` (the loop breaks), or a
reference whose document load (`read_file` after `s3://` prefixing)
succeeds with some shape or raises. -/
inductive ValueEntry where
  | nullVal
  | ref (load : Except Unit DocShape)

/-- The `collection` field of an output after `setOutput`. -/
inductive CollectionField where
  | unset
  | sentinel            -- `json.dumps({}, indent=2)`, the empty-collection marker
  | doc (d : Dict)
  deriving DecidableEq

/-- Outcome of `setOutput`'s per-value loop: an early `return` with the
sentinel already written (load failure), or the loop ends holding the
last iteration's `collection` (reset to `None` each iteration). -/
inductive LoopOut where
  | earlyReturn
  | done (coll : Option Dict)

def setOutputLoop : List ValueEntry → Option Dict → LoopOut
  | [], coll => .done coll
  | .nullVal :: _, coll => .done coll
  | .ref (.error _) :: _, _ => .earlyReturn
  | .ref (.ok shape) :: rest, _ =>
      setOutputLoop rest
        (match shape with
          | .withCollection c => some c.dict
          | .itemsOnly fb => fb)

/-- Method `setOutput` (lines 238-302), as seen by the output's `collection`
field: a load failure writes the empty-object sentinel and returns; a
loop ending with no collection writes the sentinel; otherwise the final
collection's `to_dict()` gets its `id` forced to `collection_id` (the
source sets it twice — on the dict and again through
`output["collection"]` — with the same value). -/
def setOutput (collection_id : String) (entries : List ValueEntry) : CollectionField :=
  match setOutputLoop entries none with
  | .earlyReturn => .sentinel
  | .done none => .sentinel
  | .done (some d) => .doc (setKV "id" collection_id d)

/-- One declared output as mutated by `post_execution_hook`. -/
structure OutputDesc where
  mimeType : Option String
  value : Option String
  collection : CollectionField
  deriving DecidableEq

/-- The per-output body of `post_execution_hook`'s loop (lines 222-228):
an output with a `mimeType` goes through `setOutput` (which touches only
its `collection` field); an output without one receives `str(output[i])`
— the engine-produced value, modelled as the string `raw` — as its
`value`, and nothing else. -/
def post_execution_output (collection_id : String) (entries : List ValueEntry)
    (raw : String) (o : OutputDesc) : OutputDesc :=
  match o.mimeType with
  | some _ => { o with collection := setOutput collection_id entries }
  | none => { o with value := some raw }

/-! Service logs: `handle_outputs` and the failure-path job-log append. -/

/-- One service-log link: the `(url, title, rel)` triple built for a tool
log (the URL formatting from `tmpUrl`, identifier and log basename is
kept abstract: entries arrive here already built). -/
structure SLEntry where
  url : String
  title : String
  rel : String
  deriving DecidableEq

/-- Key of the `cindex`-th entry in the success path: `keys[j]` is
suffixed with `"_" + str(cindex)` only when `cindex > 0`. -/
def suffixKey (base : String) (cindex : Nat) : String :=
  if cindex > 0 then base ++ "_" ++ Nat.repr cindex else base

/-- One iteration of the `handle_outputs` loop: writes the entry's `url`,
`title` and `rel` under the keys of index `cindex`. -/
def writeEntry (cindex : Nat) (e : SLEntry) (m : Dict) : Dict :=
  setKV (suffixKey "rel" cindex) e.rel
    (setKV (suffixKey "title" cindex) e.title
      (setKV (suffixKey "url" cindex) e.url m))

def writeEntries : Nat → List SLEntry → Dict → Dict
  | _, [], m => m
  | c, e :: es, m => writeEntries (c + 1) es (writeEntry c e m)

/-- Method `handle_outputs` (lines 432-446), service-log part: `cindex` starts
at 1 when a `service_logs` section pre-exists, else at 0; the section is
created only inside the per-entry loop, and the final
`conf["service_logs"]["length"] = str(len(servicesLogs))` write is
unconditional — so with no entries and no pre-existing section it raises
`KeyError`. -/
def handle_outputs (slInit : Option Dict) (logs : List SLEntry) : Except Unit Dict :=
  match slInit, logs with
  | none, [] => .error ()
  | _, _ =>
      let c0 := if slInit.isSome then 1 else 0
      .ok (setKV "length" (Nat.repr logs.length)
        (writeEntries c0 logs (slInit.getD [])))

def digitVal? (c : Char) : Option Nat :=
  if c.isDigit then some (c.toNat - 48) else none

def parseDigitsAux : Nat → List Char → Option Nat
  | acc, [] => some acc
  | acc, c :: cs =>
      match digitVal? c with
      | some d => parseDigitsAux (10 * acc + d) cs
      | none => none

/-- Python `int()` as applied to the `length` strings this service itself
writes (plain digit strings); anything else stands for a raised
`ValueError`. -/
def pyInt? (s : String) : Option Nat :=
  match s.data with
  | [] => none
  | l => parseDigitsAux 0 l

/-- Failure-branch key suffix: `keys[i] += "_" + str(int(length))` runs
whenever a `length` key exists — including for the value `0`, which the
success path would leave unsuffixed. -/
def fSuffix (base : String) : Option Nat → String
  | some n => base ++ "_" ++ Nat.repr n
  | none => base

/-- The failure-path job-log salvage of the service entrypoint (lines
509-520): ensure a `service_logs` section, suffix the keys with the
integer value of the existing `length` counter (no suffix when the
counter is absent; `none` models `int()` raising, which aborts the
salvage inside its own guard), write the job-log entry, and
unconditionally reset `length` to `"1"`. -/
def failure_log_append (slInit : Option Dict) (e : SLEntry) : Option Dict :=
  let m := slInit.getD []
  match getV m "length" with
  | some s =>
      match pyInt? s with
      | some n =>
          some (setKV "length" "1"
            (setKV (fSuffix "rel" (some n)) e.rel
              (setKV (fSuffix "title" (some n)) e.title
                (setKV (fSuffix "url" (some n)) e.url m))))
      | none => none
  | none =>
      some (setKV "length" "1"
        (setKV "rel" e.rel (setKV "title" e.title (setKV "url" e.url m))))

/-- Is this key the `url` key of some service-log entry (`url`, or
`url_N` for a decimal `N`)? Used to count the entries a `service_logs`
section holds. -/
def isUrlKey (k : String) : Bool :=
  k == "url" ||
    (match k.data with
     | 'u' :: 'r' :: 'l' :: '_' :: rest => !rest.isEmpty && rest.all (·.isDigit)
     | _ => false)

/-- How many entries a `service_logs` section holds. -/
def entryCount (m : Dict) : Nat :=
  (m.filter fun kv => isUrlKey kv.1).length

/-- Reference implementation of the digit list `Nat.toDigits 10`
produces, in directly recursive form. -/
def decDigits (n : Nat) : List Char :=
  if h : n < 10 then [Nat.digitChar n]
  else
    have : n / 10 < n := Nat.div_lt_self (by omega) (by omega)
    decDigits (n / 10) ++ [Nat.digitChar (n % 10)]

theorem getV_setKV (m : Dict) (k k' v : String) :
    getV (setKV k v m) k' = if k = k' then some v else getV m k' := by
  induction m with
  | nil => simp [setKV, getV]
  | cons p m ih =>
    obtain ⟨k₀, v₀⟩ := p
    by_cases h : k₀ = k
    · subst h
      simp only [setKV, if_pos rfl, getV]
      by_cases h' : k₀ = k' <;> simp [h']
    · simp only [setKV, if_neg h, getV]
      by_cases h' : k₀ = k'
      · subst h'
        have hne : k ≠ k₀ := fun hh => h hh.symm
        simp [if_neg hne]
      · simp [h', ih]

theorem setKV_of_getV {m : Dict} {k v : String} (h : getV m k = some v) :
    setKV k v m = m := by
  induction m with
  | nil => simp [getV] at h
  | cons p m ih =>
    obtain ⟨k₀, v₀⟩ := p
    by_cases hk : k₀ = k
    · simp only [getV, if_pos hk] at h
      obtain rfl : v₀ = v := Option.some.inj h
      simp only [setKV, if_pos hk]
      rw [hk]
    · simp only [getV, if_neg hk] at h
      simp only [setKV, if_neg hk, ih h]

/-- C7: after applying credential defaults, all nine staging keys are
present in `additional_parameters`, and a second application under the
same ambient environment leaves the section unchanged. -/
theorem C7_defaults_present_and_idempotent
    (env : String → Option String) (ap : Option Dict) (k : String)
    (hk : k ∈ stagingKeys) :
    (getV (init_config_defaults env ap) k).isSome = true ∧
      init_config_defaults env (some (init_config_defaults env ap)) =
        init_config_defaults env ap := by
  constructor
  · simp only [stagingKeys, List.mem_cons, List.not_mem_nil, or_false] at hk
    rcases hk with rfl | rfl | rfl | rfl | rfl | rfl | rfl | rfl | rfl <;>
      simp +decide [init_config_defaults, getV_setKV]
  · have g1 : getV (init_config_defaults env ap) "STAGEIN_AWS_SERVICEURL" =
        some (envOr env "STAGEIN_AWS_SERVICEURL"
          "http://s3-service.zoo.svc.cluster.local:9000") := by
      simp +decide [init_config_defaults, getV_setKV]
    have g2 : getV (init_config_defaults env ap) "STAGEIN_AWS_ACCESS_KEY_ID" =
        some (envOr env "STAGEIN_AWS_ACCESS_KEY_ID" "minio-admin") := by
      simp +decide [init_config_defaults, getV_setKV]
    have g3 : getV (init_config_defaults env ap) "STAGEIN_AWS_SECRET_ACCESS_KEY" =
        some (envOr env "STAGEIN_AWS_SECRET_ACCESS_KEY" "minio-secret-password") := by
      simp +decide [init_config_defaults, getV_setKV]
    have g4 : getV (init_config_defaults env ap) "STAGEIN_AWS_REGION" =
        some (envOr env "STAGEIN_AWS_REGION" "RegionOne") := by
      simp +decide [init_config_defaults, getV_setKV]
    have g5 : getV (init_config_defaults env ap) "STAGEOUT_AWS_SERVICEURL" =
        some (envOr env "STAGEOUT_AWS_SERVICEURL"
          "http://s3-service.zoo.svc.cluster.local:9000") := by
      simp +decide [init_config_defaults, getV_setKV]
    have g6 : getV (init_config_defaults env ap) "STAGEOUT_AWS_ACCESS_KEY_ID" =
        some (envOr env "STAGEOUT_AWS_ACCESS_KEY_ID" "minio-admin") := by
      simp +decide [init_config_defaults, getV_setKV]
    have g7 : getV (init_config_defaults env ap) "STAGEOUT_AWS_SECRET_ACCESS_KEY" =
        some (envOr env "STAGEOUT_AWS_SECRET_ACCESS_KEY" "minio-secret-password") := by
      simp +decide [init_config_defaults, getV_setKV]
    have g8 : getV (init_config_defaults env ap) "STAGEOUT_AWS_REGION" =
        some (envOr env "STAGEOUT_AWS_REGION" "RegionOne") := by
      simp +decide [init_config_defaults, getV_setKV]
    have g9 : getV (init_config_defaults env ap) "STAGEOUT_OUTPUT" =
        some (envOr env "STAGEOUT_OUTPUT" "eoepca") := by
      simp +decide [init_config_defaults, getV_setKV]
    show setKV "STAGEOUT_OUTPUT" (envOr env "STAGEOUT_OUTPUT" "eoepca")
        (setKV "STAGEOUT_AWS_REGION" (envOr env "STAGEOUT_AWS_REGION" "RegionOne")
          (setKV "STAGEOUT_AWS_SECRET_ACCESS_KEY"
            (envOr env "STAGEOUT_AWS_SECRET_ACCESS_KEY" "minio-secret-password")
            (setKV "STAGEOUT_AWS_ACCESS_KEY_ID"
              (envOr env "STAGEOUT_AWS_ACCESS_KEY_ID" "minio-admin")
              (setKV "STAGEOUT_AWS_SERVICEURL"
                (envOr env "STAGEOUT_AWS_SERVICEURL"
                  "http://s3-service.zoo.svc.cluster.local:9000")
                (setKV "STAGEIN_AWS_REGION" (envOr env "STAGEIN_AWS_REGION" "RegionOne")
                  (setKV "STAGEIN_AWS_SECRET_ACCESS_KEY"
                    (envOr env "STAGEIN_AWS_SECRET_ACCESS_KEY" "minio-secret-password")
                    (setKV "STAGEIN_AWS_ACCESS_KEY_ID"
                      (envOr env "STAGEIN_AWS_ACCESS_KEY_ID" "minio-admin")
                      (setKV "STAGEIN_AWS_SERVICEURL"
                        (envOr env "STAGEIN_AWS_SERVICEURL"
                          "http://s3-service.zoo.svc.cluster.local:9000")
                        (init_config_defaults env ap))))))))) =
      init_config_defaults env ap
    rw [setKV_of_getV g1, setKV_of_getV g2, setKV_of_getV g3, setKV_of_getV g4,
      setKV_of_getV g5, setKV_of_getV g6, setKV_of_getV g7, setKV_of_getV g8,
      setKV_of_getV g9]

theorem C7_witness :
    "STAGEOUT_OUTPUT" ∈ stagingKeys ∧
      (getV (init_config_defaults (fun _ => none) none) "STAGEOUT_OUTPUT").isSome = true :=
  ⟨by decide, (C7_defaults_present_and_idempotent (fun _ => none) none
    "STAGEOUT_OUTPUT" (by decide)).1⟩

/-- C9: loading the image-pull-secret document yields an empty mapping,
without raising, when the file is absent or malformed. -/
theorem C9_get_secrets_missing_or_malformed :
    get_secrets .missing = .ok (.mapping []) ∧
      get_secrets (.content (.error ())) = .ok (.mapping []) :=
  ⟨rfl, rfl⟩

/-- C3 counterexample: with `HTTP_PROXY` present with value `""` both at
handler construction and immediately before the hook, the variable is
absent after the hook — the restore step skips falsy captured values, so
the prior value is not restored. -/
theorem C3_counterexample :
    (runHookProxy (some "") (some "") false).2 = none ∧
      (runHookProxy (some "") (some "") false).2 ≠ some "" :=
  ⟨rfl, by decide⟩

/-- C3 (amended): the captured value is taken at handler construction,
and only a truthy (nonempty) captured value is restored; for every
environment whose `HTTP_PROXY` value at construction is some nonempty
`v`, after any hook call — whether its body raises or not — the variable
holds exactly `v` again. -/
theorem C3_proxy_roundtrip (v : String) (env : Option String) (bodyRaises : Bool)
    (hv : v ≠ "") :
    (runHookProxy (some v) env bodyRaises).2 = some v := by
  have : pyTruthyStr (some v) = true := by
    simp [pyTruthyStr, hv]
  simp [runHookProxy, restore_http_proxy_env, this]

theorem C3_witness :
    ("http://proxy.local:3128" : String) ≠ "" ∧
      (runHookProxy (some "http://proxy.local:3128") (some "http://proxy.local:3128")
        true).2 = some "http://proxy.local:3128" :=
  ⟨by decide, C3_proxy_roundtrip "http://proxy.local:3128"
    (some "http://proxy.local:3128") true (by decide)⟩

/-- C6 counterexample: a decoded token whose `username` claim holds the
empty string is a token containing a recognized claim, yet resolution
does not return that claim's value — the falsy check sends it to the
namespace fallback instead. -/
theorem C6_counterexample :
    get_user_name [("username", "")] = some "" ∧
      resolve_username (some [("username", "")]) (some "svc-ns") = some "svc-ns" :=
  ⟨rfl, rfl⟩

/-- C6 (amended): resolution returns the first matching claim in priority
order `username`, `user_name`, `preferred_username` provided that value
is nonempty; an empty first match, no match, or no token falls back to
the ambient namespace value, and when that is also unset the result is
`none`, without error. -/
theorem C6_username_resolution :
    (∀ (d : Dict) (v : String) (ns : Option String),
        getV d "username" = some v → v ≠ "" →
        resolve_username (some d) ns = some v) ∧
      (∀ (d : Dict) (v : String) (ns : Option String),
        getV d "username" = none → getV d "user_name" = some v → v ≠ "" →
        resolve_username (some d) ns = some v) ∧
      (∀ (d : Dict) (v : String) (ns : Option String),
        getV d "username" = none → getV d "user_name" = none →
        getV d "preferred_username" = some v → v ≠ "" →
        resolve_username (some d) ns = some v) ∧
      (∀ (d : Dict) (ns : Option String),
        get_user_name d = none ∨ get_user_name d = some "" →
        resolve_username (some d) ns = ns) ∧
      (∀ ns : Option String, resolve_username none ns = ns) := by
  refine ⟨?_, ?_, ?_, ?_, ?_⟩
  · intro d v ns h hv
    simp [resolve_username, get_user_name, h, pyTruthyStr, hv]
  · intro d v ns h0 h hv
    simp [resolve_username, get_user_name, h0, h, pyTruthyStr, hv]
  · intro d v ns h0 h1 h hv
    simp [resolve_username, get_user_name, h0, h1, h, pyTruthyStr, hv]
  · intro d ns h
    rcases h with h | h <;> simp [resolve_username, h, pyTruthyStr]
  · intro ns
    simp [resolve_username, pyTruthyStr]

theorem C6_witness :
    getV [("user_name", "alice")] "username" = none ∧
      resolve_username (some [("user_name", "alice")]) none = some "alice" ∧
      resolve_username (some [("other", "x")]) none = none :=
  ⟨by decide,
    C6_username_resolution.2.1 [("user_name", "alice")] "alice" none
      (by decide) (by decide) (by decide),
    C6_username_resolution.2.2.2.1 [("other", "x")] none (Or.inl (by decide))⟩

/-- C1 counterexample: with workspace mode enabled and the default
credentials applied, a network failure of the workspace-details call
raises out of the credential-resolution step (the hook re-raises), and so
does a 2xx response whose body cannot be decoded — contradicting the
claim that any failed call is absorbed. -/
theorem C1_counterexample :
    resolve_workspace (init_config_defaults (fun _ => none) none) .netFail =
        .error () ∧
      resolve_workspace (init_config_defaults (fun _ => none) none)
        (.resp true (.error ())) = .error () :=
  ⟨rfl, rfl⟩

/-- C1 (amended): only a *delivered* non-2xx response is absorbed: the
step then returns normally, `additional_parameters` is exactly what it
was (so every STAGEOUT_* entry keeps its previously applied default) and
workspace mode is disabled; a network failure or a malformed body of a
2xx response raises out of the step. -/
theorem C1_bad_status_degrades_gracefully :
    (∀ (ap : Dict) (body : Except Unit StorageCredentials),
        resolve_workspace ap (.resp false body) = .ok (ap, false)) ∧
      (∀ ap : Dict, resolve_workspace ap .netFail = .error ()) ∧
      (∀ (ap : Dict) (e : Unit),
        resolve_workspace ap (.resp true (.error e)) = .error ()) :=
  ⟨fun _ _ => rfl, fun _ => rfl, fun _ _ => rfl⟩

/-- C4: a loadable document holding a native collection comes back as
that collection's dict with `id` forced to the supplied job-scoped
`collection_id`, whatever identifier the source document carried; every
other field of the collection is preserved. -/
theorem C4_native_collection_id_forced (collection_id : String) (c : SrcCollection)
    (k : String) (hk : k ≠ "id") :
    ∃ d, setOutput collection_id [.ref (.ok (.withCollection c))] = .doc d ∧
      getV d "id" = some collection_id ∧
      getV d k = getV c.dict k := by
  refine ⟨setKV "id" collection_id c.dict, rfl, ?_, ?_⟩
  · rw [getV_setKV, if_pos rfl]
  · rw [getV_setKV, if_neg fun h => hk h.symm]

theorem C4_witness :
    ("stac_version" : String) ≠ "id" ∧
      ∃ d, setOutput "job-42" [.ref (.ok (.withCollection ⟨[("id", "orig"),
          ("stac_version", "1.0.0")]⟩))] = .doc d ∧
        getV d "id" = some "job-42" ∧
        getV d "stac_version" = getV [("id", "orig"), ("stac_version", "1.0.0")]
          "stac_version" :=
  ⟨by decide, C4_native_collection_id_forced "job-42"
    ⟨[("id", "orig"), ("stac_version", "1.0.0")]⟩ "stac_version" (by decide)⟩

/-- C8: a document that cannot be loaded from its storage URI yields the
empty-collection sentinel, returning normally rather than escalating —
whether the failing reference is the first value or follows a loaded
one. -/
theorem C8_unloadable_document_yields_sentinel :
    (∀ (collection_id : String) (rest : List ValueEntry),
        setOutput collection_id (.ref (.error ()) :: rest) = .sentinel) ∧
      (∀ (collection_id : String) (shape : DocShape) (rest : List ValueEntry),
        setOutput collection_id (.ref (.ok shape) :: .ref (.error ()) :: rest) =
          .sentinel) := by
  refine ⟨fun _ _ => rfl, fun _ shape _ => ?_⟩
  cases shape <;> rfl

/-- C5: an output lacking a `mimeType` gets exactly the raw
engine-produced value as its `value`; its `collection` field (and its
declared `mimeType`) are untouched — no collection-assembly logic runs
for it. -/
theorem C5_no_mimetype_gets_raw_value (collection_id : String)
    (entries : List ValueEntry) (raw : String) (o : OutputDesc)
    (h : o.mimeType = none) :
    (post_execution_output collection_id entries raw o).value = some raw ∧
      (post_execution_output collection_id entries raw o).collection = o.collection ∧
      (post_execution_output collection_id entries raw o).mimeType = o.mimeType := by
  simp [post_execution_output, h]

theorem C5_witness :
    ({ mimeType := none, value := none, collection := .unset : OutputDesc }).mimeType
        = none ∧
      (post_execution_output "job-42" [] "42.7"
        { mimeType := none, value := none, collection := .unset }).value = some "42.7" :=
  ⟨rfl, (C5_no_mimetype_gets_raw_value "job-42" [] "42.7"
    { mimeType := none, value := none, collection := .unset } rfl).1⟩

theorem decDigits_lt {n : Nat} (h : n < 10) : decDigits n = [Nat.digitChar n] := by
  rw [decDigits, dif_pos h]

theorem decDigits_ge {n : Nat} (h : ¬ n < 10) :
    decDigits n = decDigits (n / 10) ++ [Nat.digitChar (n % 10)] := by
  conv_lhs => rw [decDigits]
  rw [dif_neg h]

theorem toDigitsCore_eq (f n : Nat) (l : List Char) (h : n < f) :
    Nat.toDigitsCore 10 f n l = decDigits n ++ l := by
  induction f generalizing n l with
  | zero => omega
  | succ f ih =>
    rw [Nat.toDigitsCore]
    by_cases h10 : n / 10 = 0
    · have hn : n < 10 := by omega
      rw [if_pos h10, decDigits_lt hn]
      have hmod : n % 10 = n := Nat.mod_eq_of_lt hn
      rw [hmod]
      rfl
    · have hn : ¬ n < 10 := by omega
      rw [if_neg h10, ih (n / 10) _ (by omega), decDigits_ge hn, List.append_assoc]
      rfl

theorem toDigits_eq (n : Nat) : Nat.toDigits 10 n = decDigits n :=
  (toDigitsCore_eq (n + 1) n [] (by omega)).trans (List.append_nil _)

theorem decDigits_ne_nil (n : Nat) : decDigits n ≠ [] := by
  by_cases h : n < 10
  · rw [decDigits_lt h]; simp
  · rw [decDigits_ge h]; simp

theorem digitChar_inj_lt :
    ∀ m, m < 10 → ∀ n, n < 10 → Nat.digitChar m = Nat.digitChar n → m = n := by
  decide

theorem decDigits_inj : ∀ m n : Nat, decDigits m = decDigits n → m = n := by
  intro m
  induction m using Nat.strong_induction_on with
  | _ m ih =>
    intro n h
    by_cases hm : m < 10 <;> by_cases hn : n < 10
    · rw [decDigits_lt hm, decDigits_lt hn] at h
      exact digitChar_inj_lt m hm n hn (List.cons.inj h).1
    · rw [decDigits_lt hm, decDigits_ge hn] at h
      have hl := congrArg List.length h
      have hpos : 0 < (decDigits (n / 10)).length :=
        List.length_pos.mpr (decDigits_ne_nil _)
      simp only [List.length_append, List.length_cons, List.length_nil] at hl
      omega
    · rw [decDigits_ge hm, decDigits_lt hn] at h
      have hl := congrArg List.length h
      have hpos : 0 < (decDigits (m / 10)).length :=
        List.length_pos.mpr (decDigits_ne_nil _)
      simp only [List.length_append, List.length_cons, List.length_nil] at hl
      omega
    · rw [decDigits_ge hm, decDigits_ge hn] at h
      have hl := congrArg List.length h
      simp only [List.length_append, List.length_cons, List.length_nil] at hl
      obtain ⟨h1, h2⟩ := List.append_inj h (by omega)
      have hdiv : m / 10 = n / 10 :=
        ih (m / 10) (Nat.div_lt_self (by omega) (by omega)) (n / 10) h1
      have hmod : m % 10 = n % 10 :=
        digitChar_inj_lt _ (Nat.mod_lt _ (by omega)) _ (Nat.mod_lt _ (by omega))
          (List.cons.inj h2).1
      omega

theorem nat_repr_inj {m n : Nat} (h : Nat.repr m = Nat.repr n) : m = n := by
  apply decDigits_inj
  rw [← toDigits_eq, ← toDigits_eq]
  exact congrArg String.data h

theorem ne_of_data_head? (s t : String) (c d : Char) (hs : s.data.head? = some c)
    (ht : t.data.head? = some d) (hcd : c ≠ d) : s ≠ t := by
  intro h
  rw [h] at hs
  rw [hs] at ht
  exact hcd (Option.some.inj ht)

theorem head?_data_append (b t : String) (c : Char) (r : List Char)
    (hb : b.data = c :: r) : (b ++ t).data.head? = some c := by
  rw [String.data_append, hb]
  rfl

theorem suffixKey_data_head? {b : String} {c : Char} {r : List Char}
    (hb : b.data = c :: r) (i : Nat) : (suffixKey b i).data.head? = some c := by
  unfold suffixKey
  split
  · exact head?_data_append (b ++ "_") (Nat.repr i) c (r ++ "_".data)
      (by rw [String.data_append, hb]; rfl)
  · rw [hb]
    rfl

theorem fSuffix_some_data_head? {b : String} {c : Char} {r : List Char}
    (hb : b.data = c :: r) (n : Nat) : (fSuffix b (some n)).data.head? = some c :=
  head?_data_append (b ++ "_") (Nat.repr n) c (r ++ "_".data)
    (by rw [String.data_append, hb]; rfl)

theorem suffixKey_cross_ne {b b' : String} {c c' : Char} {r r' : List Char}
    (hb : b.data = c :: r) (hb' : b'.data = c' :: r') (hcc : c ≠ c') (i j : Nat) :
    suffixKey b i ≠ suffixKey b' j :=
  ne_of_data_head? _ _ c c' (suffixKey_data_head? hb i)
    (suffixKey_data_head? hb' j) hcc

theorem suffixKey_index_inj (b : String) {i j : Nat} (hij : i ≠ j) :
    suffixKey b i ≠ suffixKey b j := by
  unfold suffixKey
  rcases Nat.eq_zero_or_pos i with hi | hi <;> rcases Nat.eq_zero_or_pos j with hj | hj
  · omega
  · subst hi
    rw [if_neg (by omega), if_pos hj]
    intro h
    have hl := congrArg String.length h
    rw [String.length_append, String.length_append,
      (by decide : ("_" : String).length = 1)] at hl
    omega
  · subst hj
    rw [if_pos hi, if_neg (by omega)]
    intro h
    have hl := congrArg String.length h
    rw [String.length_append, String.length_append,
      (by decide : ("_" : String).length = 1)] at hl
    omega
  · rw [if_pos hi, if_pos hj]
    intro h
    apply hij
    apply nat_repr_inj
    have hd := congrArg String.data h
    simp only [String.data_append, List.append_assoc] at hd
    exact String.ext (List.append_cancel_left (List.append_cancel_left hd))

theorem getV_writeEntry_ne (cindex : Nat) (e : SLEntry) (m : Dict) {key : String}
    (h1 : suffixKey "url" cindex ≠ key) (h2 : suffixKey "title" cindex ≠ key)
    (h3 : suffixKey "rel" cindex ≠ key) :
    getV (writeEntry cindex e m) key = getV m key := by
  unfold writeEntry
  rw [getV_setKV, if_neg h3, getV_setKV, if_neg h2, getV_setKV, if_neg h1]

theorem getV_writeEntries_ne (logs : List SLEntry) (c : Nat) (m : Dict) {key : String}
    (h : ∀ i, c ≤ i →
      suffixKey "url" i ≠ key ∧ suffixKey "title" i ≠ key ∧ suffixKey "rel" i ≠ key) :
    getV (writeEntries c logs m) key = getV m key := by
  induction logs generalizing c m with
  | nil => rfl
  | cons e es ih =>
    show getV (writeEntries (c + 1) es (writeEntry c e m)) key = getV m key
    rw [ih (c + 1) _ fun i hi => h i (by omega)]
    obtain ⟨h1, h2, h3⟩ := h c (le_refl c)
    exact getV_writeEntry_ne c e m h1 h2 h3

theorem getV_writeEntries_at (logs : List SLEntry) (c k : Nat) (m : Dict)
    (hk : k < logs.length) :
    getV (writeEntries c logs m) (suffixKey "url" (c + k)) =
        some ((logs.get ⟨k, hk⟩).url) ∧
      getV (writeEntries c logs m) (suffixKey "title" (c + k)) =
        some ((logs.get ⟨k, hk⟩).title) ∧
      getV (writeEntries c logs m) (suffixKey "rel" (c + k)) =
        some ((logs.get ⟨k, hk⟩).rel) := by
  induction logs generalizing c k m with
  | nil => simp at hk
  | cons e es ih =>
    cases k with
    | zero =>
      rw [Nat.add_zero]
      show getV (writeEntries (c + 1) es (writeEntry c e m)) (suffixKey "url" c) =
          some e.url ∧
        getV (writeEntries (c + 1) es (writeEntry c e m)) (suffixKey "title" c) =
          some e.title ∧
        getV (writeEntries (c + 1) es (writeEntry c e m)) (suffixKey "rel" c) =
          some e.rel
      have hunr : ("url" : String).data = 'u' :: ['r', 'l'] := rfl
      have htir : ("title" : String).data = 't' :: ['i', 't', 'l', 'e'] := rfl
      have hrer : ("rel" : String).data = 'r' :: ['e', 'l'] := rfl
      refine ⟨?_, ?_, ?_⟩
      · rw [getV_writeEntries_ne es (c + 1) _ fun i hi =>
          ⟨suffixKey_index_inj "url" (by omega),
            suffixKey_cross_ne htir hunr (by decide) i c,
            suffixKey_cross_ne hrer hunr (by decide) i c⟩]
        unfold writeEntry
        rw [getV_setKV, if_neg (suffixKey_cross_ne hrer hunr (by decide) c c),
          getV_setKV, if_neg (suffixKey_cross_ne htir hunr (by decide) c c),
          getV_setKV, if_pos rfl]
      · rw [getV_writeEntries_ne es (c + 1) _ fun i hi =>
          ⟨suffixKey_cross_ne hunr htir (by decide) i c,
            suffixKey_index_inj "title" (by omega),
            suffixKey_cross_ne hrer htir (by decide) i c⟩]
        unfold writeEntry
        rw [getV_setKV, if_neg (suffixKey_cross_ne hrer htir (by decide) c c),
          getV_setKV, if_pos rfl]
      · rw [getV_writeEntries_ne es (c + 1) _ fun i hi =>
          ⟨suffixKey_cross_ne hunr hrer (by decide) i c,
            suffixKey_cross_ne htir hrer (by decide) i c,
            suffixKey_index_inj "rel" (by omega)⟩]
        unfold writeEntry
        rw [getV_setKV, if_pos rfl]
    | succ k' =>
      have hc : c + (k' + 1) = (c + 1) + k' := by omega
      rw [hc]
      exact ih (c + 1) k' (writeEntry c e m) (by simpa using hk)

/-- C10: with no pre-existing `service_logs` section, `handle_outputs`
raises a `KeyError` on an empty tool-log list (the section is created
only inside the per-entry loop, but the `length` counter is written
unconditionally afterwards); with at least one tool log the call
completes and `length` equals the number of newly built entries. -/
theorem C10_handle_outputs_empty_raises :
    handle_outputs none [] = .error () ∧
      ∀ logs : List SLEntry, logs ≠ [] →
        ∃ m, handle_outputs none logs = .ok m ∧
          getV m "length" = some (Nat.repr logs.length) := by
  refine ⟨rfl, ?_⟩
  intro logs hne
  cases logs with
  | nil => exact absurd rfl hne
  | cons e es =>
    refine ⟨_, rfl, ?_⟩
    rw [getV_setKV, if_pos rfl]

theorem C10_witness :
    ([⟨"http://logs/t1", "Tool log t1", "related"⟩] : List SLEntry) ≠ [] ∧
      ∃ m, handle_outputs none [⟨"http://logs/t1", "Tool log t1", "related"⟩] =
          .ok m ∧
        getV m "length" =
          some (Nat.repr ([⟨"http://logs/t1", "Tool log t1", "related"⟩] :
            List SLEntry).length) :=
  ⟨by decide, C10_handle_outputs_empty_raises.2
    [⟨"http://logs/t1", "Tool log t1", "related"⟩] (by decide)⟩

/-- C2 counterexample: a `service_logs` section holding two entries and
`length = "2"` goes through the failure-path job-log append; the entry
is written under `url_2` (so three entries exist afterwards), but the
length counter is reset to `"1"` — it does not equal the number of
entries that exist. -/
theorem C2_counterexample :
    (failure_log_append
        (some [("url", "http://logs/t0"), ("title", "Tool log t0"),
          ("rel", "related"), ("url_1", "http://logs/t1"),
          ("title_1", "Tool log t1"), ("rel_1", "related"), ("length", "2")])
        ⟨"http://logs/job.log", "Job pod log", "related"⟩).map entryCount =
        some 3 ∧
      (failure_log_append
        (some [("url", "http://logs/t0"), ("title", "Tool log t0"),
          ("rel", "related"), ("url_1", "http://logs/t1"),
          ("title_1", "Tool log t1"), ("rel_1", "related"), ("length", "2")])
        ⟨"http://logs/job.log", "Job pod log", "related"⟩).bind
          (fun m => getV m "length") = some "1" ∧
      ("1" : String) ≠ Nat.repr 3 := by
  decide

/-- C2 (amended): `handle_outputs` on a configuration with no
pre-existing `service_logs` numbers the entries it writes sequentially —
entry 0 unsuffixed, entry `k` under the `_k`-suffixed keys — and sets
`length` to the number of entries it wrote; the failure path writes its
job-log entry at the suffix given by the integer value of the existing
`length` counter and then resets the counter to `"1"` unconditionally,
so after it the counter need not equal the number of entries present. -/
theorem C2_service_log_numbering :
    (∀ (logs : List SLEntry) (k : Nat) (hk : k < logs.length),
        ∃ m, handle_outputs none logs = .ok m ∧
          getV m (suffixKey "url" k) = some ((logs.get ⟨k, hk⟩).url) ∧
          getV m (suffixKey "title" k) = some ((logs.get ⟨k, hk⟩).title) ∧
          getV m (suffixKey "rel" k) = some ((logs.get ⟨k, hk⟩).rel) ∧
          getV m "length" = some (Nat.repr logs.length)) ∧
      ∀ (sl : Dict) (e : SLEntry) (s : String) (n : Nat),
        getV sl "length" = some s → pyInt? s = some n →
        ∃ m, failure_log_append (some sl) e = some m ∧
          getV m (fSuffix "url" (some n)) = some e.url ∧
          getV m "length" = some "1" := by
  constructor
  · intro logs k hk
    cases logs with
    | nil => simp at hk
    | cons e es =>
      refine ⟨_, rfl, ?_, ?_, ?_, ?_⟩
      · have hulen : suffixKey "url" k ≠ "length" :=
          ne_of_data_head? _ _ 'u' 'l' (suffixKey_data_head? rfl k) rfl (by decide)
        rw [getV_setKV, if_neg fun hh => hulen hh.symm]
        have := (getV_writeEntries_at (e :: es) 0 k [] hk).1
        rwa [Nat.zero_add] at this
      · have htlen : suffixKey "title" k ≠ "length" :=
          ne_of_data_head? _ _ 't' 'l' (suffixKey_data_head? rfl k) rfl (by decide)
        rw [getV_setKV, if_neg fun hh => htlen hh.symm]
        have := (getV_writeEntries_at (e :: es) 0 k [] hk).2.1
        rwa [Nat.zero_add] at this
      · have hrlen : suffixKey "rel" k ≠ "length" :=
          ne_of_data_head? _ _ 'r' 'l' (suffixKey_data_head? rfl k) rfl (by decide)
        rw [getV_setKV, if_neg fun hh => hrlen hh.symm]
        have := (getV_writeEntries_at (e :: es) 0 k [] hk).2.2
        rwa [Nat.zero_add] at this
      · rw [getV_setKV, if_pos rfl]
  · intro sl e s n h1 h2
    have hsl : failure_log_append (some sl) e =
        some (setKV "length" "1"
          (setKV (fSuffix "rel" (some n)) e.rel
            (setKV (fSuffix "title" (some n)) e.title
              (setKV (fSuffix "url" (some n)) e.url sl)))) := by
      unfold failure_log_append
      show (match getV sl "length" with
        | some s =>
            match pyInt? s with
            | some n =>
                some (setKV "length" "1"
                  (setKV (fSuffix "rel" (some n)) e.rel
                    (setKV (fSuffix "title" (some n)) e.title
                      (setKV (fSuffix "url" (some n)) e.url sl))))
            | none => none
        | none =>
            some (setKV "length" "1"
              (setKV "rel" e.rel (setKV "title" e.title (setKV "url" e.url sl))))) = _
      rw [h1]
      show (match pyInt? s with
        | some n =>
            some (setKV "length" "1"
              (setKV (fSuffix "rel" (some n)) e.rel
                (setKV (fSuffix "title" (some n)) e.title
                  (setKV (fSuffix "url" (some n)) e.url sl))))
        | none => none) = _
      rw [h2]
    refine ⟨_, hsl, ?_, ?_⟩
    · have hlu : ("length" : String) ≠ fSuffix "url" (some n) :=
        ne_of_data_head? _ _ 'l' 'u' rfl (fSuffix_some_data_head? rfl n) (by decide)
      have hru : fSuffix "rel" (some n) ≠ fSuffix "url" (some n) :=
        ne_of_data_head? _ _ 'r' 'u' (fSuffix_some_data_head? rfl n)
          (fSuffix_some_data_head? rfl n) (by decide)
      have htu : fSuffix "title" (some n) ≠ fSuffix "url" (some n) :=
        ne_of_data_head? _ _ 't' 'u' (fSuffix_some_data_head? rfl n)
          (fSuffix_some_data_head? rfl n) (by decide)
      rw [getV_setKV, if_neg hlu, getV_setKV, if_neg hru, getV_setKV, if_neg htu,
        getV_setKV, if_pos rfl]
    · rw [getV_setKV, if_pos rfl]

theorem C2_witness :
    (∃ m, handle_outputs none
          [⟨"http://logs/t0", "Tool log t0", "related"⟩,
            ⟨"http://logs/t1", "Tool log t1", "related"⟩] = .ok m ∧
        getV m (suffixKey "url" 1) = some "http://logs/t1" ∧
        getV m (suffixKey "title" 1) = some "Tool log t1" ∧
        getV m (suffixKey "rel" 1) = some "related" ∧
        getV m "length" = some (Nat.repr 2)) ∧
      ∃ m, failure_log_append (some [("length", "2")])
          ⟨"http://logs/job.log", "Job pod log", "related"⟩ = some m ∧
        getV m (fSuffix "url" (some 2)) = some "http://logs/job.log" ∧
        getV m "length" = some "1" :=
  ⟨C2_service_log_numbering.1
      [⟨"http://logs/t0", "Tool log t0", "related"⟩,
        ⟨"http://logs/t1", "Tool log t1", "related"⟩] 1 (by decide),
    C2_service_log_numbering.2 [("length", "2")]
      ⟨"http://logs/job.log", "Job pod log", "related"⟩ "2" 2 (by decide) (by decide)⟩

end EoepcaService

